import Mathlib

/-!
Shallow embedding of the similarity/distance core and the search monitor of
the shufflr repository (src/src/shufflr/track.py, artist.py, shuffling.py,
configuration.py), together with theorems settling the frozen claims about it.

Numeric modelling: Python floats are modelled as exact rationals for the data
(weights, audio features, genre embeddings, objective values, timestamps) and
as real numbers for the derived distances, whose computation applies `sqrt`.
Fallible Python code (raised exceptions) is modelled with `Option`: `none`
marks the raising execution path.
-/

namespace Shufflr

/-- The 24 musical keys, in the order of the `Key` enum of `track.py`. -/
inductive Key where
  | cMajor | cMinor | dFlatMajor | dFlatMinor | dMinor | dMajor
  | eFlatMajor | eFlatMinor | eMajor | eMinor | fMajor | fMinor
  | fSharpMajor | fSharpMinor | gMajor | gMinor | aFlatMajor | aFlatMinor
  | aMajor | aMinor | bFlatMajor | bFlatMinor | bMinor | bMajor
  deriving DecidableEq, Fintype, Repr

/-- The compatible-key table `gCompatibleKeys` of `track.py` (the Python sets
are rendered as lists; only membership is ever queried). -/
def gCompatibleKeys : Key → List Key
  | .cMajor => [.cMajor, .aMinor, .gMajor, .fMajor]
  | .cMinor => [.cMinor, .eFlatMajor, .gMinor, .fMinor]
  | .dFlatMajor => [.dFlatMajor, .bFlatMinor, .aFlatMajor, .fSharpMajor]
  | .dFlatMinor => [.dFlatMinor, .eMajor, .aFlatMinor, .fSharpMinor]
  | .dMajor => [.dMajor, .bMinor, .aMajor, .gMajor]
  | .dMinor => [.dMinor, .fMajor, .aMinor, .gMinor]
  | .eFlatMajor => [.eFlatMajor, .cMinor, .bFlatMajor, .aFlatMajor]
  | .eFlatMinor => [.eFlatMinor, .fSharpMajor, .bFlatMinor, .aFlatMinor]
  | .eMajor => [.eMajor, .dFlatMinor, .bMajor, .aMajor]
  | .eMinor => [.eMinor, .gMajor, .bMinor, .aMinor]
  | .fMajor => [.fMajor, .dMinor, .cMajor, .bFlatMajor]
  | .fMinor => [.fMinor, .aFlatMajor, .cMinor, .bFlatMinor]
  | .fSharpMajor => [.fSharpMajor, .eFlatMinor, .dFlatMajor, .bMajor]
  | .fSharpMinor => [.fSharpMinor, .aMajor, .dFlatMinor, .bMinor]
  | .gMajor => [.gMajor, .eMinor, .dMajor, .cMajor]
  | .gMinor => [.gMinor, .bFlatMajor, .dMinor, .cMinor]
  | .aFlatMajor => [.aFlatMajor, .fMinor, .eFlatMajor, .dFlatMajor]
  | .aFlatMinor => [.aFlatMinor, .bMajor, .eFlatMinor, .dFlatMinor]
  | .aMajor => [.aMajor, .fSharpMinor, .eMajor, .dMajor]
  | .aMinor => [.aMinor, .cMajor, .eMinor, .dMinor]
  | .bFlatMajor => [.bFlatMajor, .gMinor, .fMajor, .eFlatMajor]
  | .bFlatMinor => [.bFlatMinor, .dFlatMajor, .fMinor, .eFlatMinor]
  | .bMajor => [.bMajor, .aFlatMinor, .fSharpMajor, .eMajor]
  | .bMinor => [.bMinor, .dMajor, .fSharpMinor, .eMinor]

/-- The method `Key.IsCompatible` of `track.py`: `other in gCompatibleKeys[self]`. -/
def Key.IsCompatible (self other : Key) : Bool :=
  decide (other ∈ gCompatibleKeys self)

/-- The 5-tuple genre embedding of `artist.py` (`_LoadData` produces, for each
genre label, the normalized x/y positions and the three rescaled chroma
components).  The concrete table lives in the data file `genres.json`, which is
not part of the sources; it enters the embedding as a parameter. -/
structure GenrePoint where
  x : ℚ
  y : ℚ
  r : ℚ
  g : ℚ
  b : ℚ
  deriving DecidableEq, Repr

/-- The genre table `GenreDistanceComputer._data`: genre label to embedding
point, `none` for labels absent from the table. -/
def GenreTable : Type := String → Option GenrePoint

namespace GenreDistanceComputer

/-- The method `GenreDistanceComputer.ComputeDistance` of `artist.py`: `none` models the
Python `None` result for a label absent from `_data`; otherwise the root of
the mean of the five squared component differences.  The `_cache` memoization
of the source is omitted: it only avoids recomputation (keyed by the unordered
pair), it does not change the computed value. -/
noncomputable def ComputeDistance (gt : GenreTable) (genre1 genre2 : String) :
    Option ℝ :=
  match gt genre1, gt genre2 with
  | some d1, some d2 =>
      some (Real.sqrt ((((d1.x - d2.x) ^ 2 + (d1.y - d2.y) ^ 2 +
        (d1.r - d2.r) ^ 2 + (d1.g - d2.g) ^ 2 + (d1.b - d2.b) ^ 2) / 5 : ℚ)))
  | _, _ => none

end GenreDistanceComputer

/-- The class `Artist` of `artist.py`: id, name, genre labels.  Python equality compares
ids only. -/
structure Artist where
  id : String
  name : String
  genres : List String
  deriving DecidableEq, Repr

/-- The list comprehension `genreDistances` in `Artist.ComputeDistance`:
genre-distance results over the cross product of the genre labels of the two
artists. -/
noncomputable def Artist.genreDistances (gt : GenreTable) (a b : Artist) :
    List (Option ℝ) :=
  a.genres.flatMap fun selfGenre =>
    b.genres.map fun otherGenre =>
      GenreDistanceComputer.ComputeDistance gt selfGenre otherGenre

/-- The local `nonNoneGenreDistances` in `Artist.ComputeDistance`: the non-`None`
entries of `genreDistances`. -/
noncomputable def Artist.validGenreDistances (gt : GenreTable) (a b : Artist) :
    List ℝ :=
  (Artist.genreDistances gt a b).reduceOption

/-- The method `Artist.ComputeDistance` of `artist.py`: 0 for equal ids (Python `==` is
id comparison); otherwise the minimum of the non-`None` genre distances, or
1.0 when none exists. -/
noncomputable def Artist.ComputeDistance (gt : GenreTable) (a b : Artist) : ℝ :=
  if a.id = b.id then 0
  else
    match Artist.validGenreDistances gt a b with
    | [] => 1
    | x :: xs => xs.foldl min x

/-- The catalog client, reduced to the single operation the distance model
uses: `client.QueryArtist(loginUserID, artistID)` resolving an artist id to an
`Artist` record (`client.py` performs this through the remote catalog; the
login user id is a pass-through credential and is dropped here). -/
structure Client where
  queryArtist : String → Artist

/-- The eleven feature weights of `Configuration.__init__` in
`configuration.py` (the remaining configuration fields play no role in the
claims). -/
structure Configuration where
  acousticnessWeight : ℚ
  danceabilityWeight : ℚ
  differentArtistWeight : ℚ
  energyWeight : ℚ
  genreWeight : ℚ
  instrumentalnessWeight : ℚ
  keyWeight : ℚ
  livenessWeight : ℚ
  speechinessWeight : ℚ
  tempoWeight : ℚ
  valenceWeight : ℚ
  deriving DecidableEq, Repr

/-- The default weights assigned in `Configuration.__init__`. -/
def Configuration.defaults : Configuration where
  acousticnessWeight := 1
  danceabilityWeight := 1
  differentArtistWeight := 5
  energyWeight := 1
  genreWeight := 3
  instrumentalnessWeight := 1
  keyWeight := 3
  livenessWeight := 1
  speechinessWeight := 1
  tempoWeight := 2
  valenceWeight := 1

/-- The class `Track` of `track.py`: id, name, artist ids, the eight audio features and
the optional key.  Python equality compares ids only. -/
structure Track where
  id : String
  name : String
  artistIDs : List String
  acousticness : ℚ
  danceability : ℚ
  energy : ℚ
  instrumentalness : ℚ
  key : Option Key
  liveness : ℚ
  speechiness : ℚ
  tempo : ℚ
  valence : ℚ
  deriving DecidableEq, Repr

namespace Track

/-- The test `len(set(self.artistIDs) & set(other.artistIDs)) > 0` in
`Track.ComputeDistance`: the two tracks share at least one artist id. -/
def sharesArtist (t o : Track) : Bool :=
  t.artistIDs.any fun i => o.artistIDs.contains i

/-- Python `statistics.mean`: the arithmetic mean of a list, raising
(`none`, for the `StatisticsError`) on an empty list. -/
noncomputable def pymean (l : List ℝ) : Option ℝ :=
  if l.isEmpty then none else some (l.sum / l.length)

/-- The generator feeding `statistics.mean` in the `genreDistance` branch of
`Track.ComputeDistance`: artist distances over the cross product of the two
resolved artists of the two tracks. -/
noncomputable def genreDistanceTerms (client : Client) (gt : GenreTable)
    (t o : Track) : List ℝ :=
  t.artistIDs.flatMap fun selfArtistID =>
    o.artistIDs.map fun otherArtistID =>
      Artist.ComputeDistance gt (client.queryArtist selfArtistID)
        (client.queryArtist otherArtistID)

/-- The `genreDistance` value of `Track.ComputeDistance` before the weight
guard: the mean of the pairwise artist distances (`none` models the
`StatisticsError` raised by `statistics.mean` on an empty sequence, i.e. when
a track has zero artists). -/
noncomputable def genreDistanceRaw (client : Client) (gt : GenreTable)
    (t o : Track) : Option ℝ :=
  pymean (genreDistanceTerms client gt t o)

/-- The `keyDistance` value of `Track.ComputeDistance` before the weight
guard: 0.0 when both keys are present and compatible, else 1.0. -/
def keyDistanceRaw (t o : Track) : ℚ :=
  match t.key, o.key with
  | some k1, some k2 => if k1.IsCompatible k2 then 0 else 1
  | _, _ => 1

/-- The `tempoDistance` value of `Track.ComputeDistance`:
`min(abs(tempo difference) / 10, 1)`. -/
def tempoDistance (t o : Track) : ℚ :=
  min (|t.tempo - o.tempo| / 10) 1

/-- The method `Track.ComputeDistance` of `track.py`.  Structure follows the source:
early return 0.0 for equal ids; the `differentArtist`, `genre` and `key`
components are computed only behind their positive-weight guards (0.0
otherwise); the result is the square root of the weighted sum of squared
components.  `none` models the `StatisticsError` escaping from the genre
branch when the artist cross product is empty. -/
noncomputable def ComputeDistance (client : Client) (gt : GenreTable)
    (cfg : Configuration) (t o : Track) : Option ℝ :=
  if t.id = o.id then some 0
  else
    let differentArtistDistance : ℚ :=
      if 0 < cfg.differentArtistWeight then (if t.sharesArtist o then 1 else 0)
      else 0
    let genreDistanceOpt : Option ℝ :=
      if 0 < cfg.genreWeight then genreDistanceRaw client gt t o else some 0
    let keyDistance : ℚ :=
      if 0 < cfg.keyWeight then keyDistanceRaw t o else 0
    match genreDistanceOpt with
    | none => none
    | some genreDistance =>
        some (Real.sqrt (
          (cfg.acousticnessWeight : ℝ) * ((t.acousticness : ℝ) - (o.acousticness : ℝ)) ^ 2 +
          (cfg.danceabilityWeight : ℝ) * ((t.danceability : ℝ) - (o.danceability : ℝ)) ^ 2 +
          (cfg.differentArtistWeight : ℝ) * (differentArtistDistance : ℝ) ^ 2 +
          (cfg.energyWeight : ℝ) * ((t.energy : ℝ) - (o.energy : ℝ)) ^ 2 +
          (cfg.genreWeight : ℝ) * genreDistance ^ 2 +
          (cfg.instrumentalnessWeight : ℝ) * ((t.instrumentalness : ℝ) - (o.instrumentalness : ℝ)) ^ 2 +
          (cfg.keyWeight : ℝ) * (keyDistance : ℝ) ^ 2 +
          (cfg.livenessWeight : ℝ) * ((t.liveness : ℝ) - (o.liveness : ℝ)) ^ 2 +
          (cfg.speechinessWeight : ℝ) * ((t.speechiness : ℝ) - (o.speechiness : ℝ)) ^ 2 +
          (cfg.tempoWeight : ℝ) * (tempoDistance t o : ℝ) ^ 2 +
          (cfg.valenceWeight : ℝ) * ((t.valence : ℝ) - (o.valence : ℝ)) ^ 2))

end Track

/-- The eleven feature axes, in the order of `featureNames` in
`Configuration.CreateArgumentParser`. -/
inductive Axis where
  | acousticness | danceability | differentArtist | energy | genre
  | instrumentalness | key | liveness | speechiness | tempo | valence
  deriving DecidableEq, Fintype, Repr

/-- The weight field of a configuration for a given axis (the
`f"{featureName}Weight"` attribute lookup of `configuration.py`). -/
def Configuration.weightOf (cfg : Configuration) : Axis → ℚ
  | .acousticness => cfg.acousticnessWeight
  | .danceability => cfg.danceabilityWeight
  | .differentArtist => cfg.differentArtistWeight
  | .energy => cfg.energyWeight
  | .genre => cfg.genreWeight
  | .instrumentalness => cfg.instrumentalnessWeight
  | .key => cfg.keyWeight
  | .liveness => cfg.livenessWeight
  | .speechiness => cfg.speechinessWeight
  | .tempo => cfg.tempoWeight
  | .valence => cfg.valenceWeight

/-- The `setattr(self, key, value)` weight assignment performed by both
`Configuration.ParseArguments` (for command-line `--…Weight` values, parsed
with a bare `type=float`) and `Configuration.ReadFile` (for weight entries of
the JSON configuration file).  Neither code path validates the value: any
rational (in particular a negative one) is stored as-is. -/
def Configuration.setWeight (cfg : Configuration) (ax : Axis) (v : ℚ) :
    Configuration :=
  match ax with
  | .acousticness => { cfg with acousticnessWeight := v }
  | .danceability => { cfg with danceabilityWeight := v }
  | .differentArtist => { cfg with differentArtistWeight := v }
  | .energy => { cfg with energyWeight := v }
  | .genre => { cfg with genreWeight := v }
  | .instrumentalness => { cfg with instrumentalnessWeight := v }
  | .key => { cfg with keyWeight := v }
  | .liveness => { cfg with livenessWeight := v }
  | .speechiness => { cfg with speechinessWeight := v }
  | .tempo => { cfg with tempoWeight := v }
  | .valence => { cfg with valenceWeight := v }

/-- The per-key assignment loop shared by `Configuration.ParseArguments`
(`for key in self.GetKeys(): … setattr(self, key, getattr(arguments, key))`)
and `Configuration.ReadFile`
(`for key in self.GetKeys(): if key in fileConfiguration: setattr(…)`),
restricted to the weight keys: each provided (axis, value) pair is stored
unconditionally. -/
def Configuration.applyWeightSettings (cfg : Configuration)
    (settings : List (Axis × ℚ)) : Configuration :=
  settings.foldl (fun c p => c.setWeight p.1 p.2) cfg

/-- The per-axis component of the distance of `Track.ComputeDistance`, as the
source computes it when the axis weight is positive.  For the seven direct
feature axes it is the absolute feature difference; for tempo the capped
difference `min(|Δtempo| / 10, 1)`; for `differentArtist` the shared-artist
indicator; for `key` the incompatibility indicator; for `genre` the mean
pairwise artist distance (the raising case of the empty mean is mapped to 0;
the theorems using the genre case assume both artist lists nonempty, where
the mean is defined). -/
noncomputable def Track.axisComponent (client : Client) (gt : GenreTable)
    (t o : Track) : Axis → ℝ
  | .acousticness => |(t.acousticness : ℝ) - (o.acousticness : ℝ)|
  | .danceability => |(t.danceability : ℝ) - (o.danceability : ℝ)|
  | .differentArtist => if t.sharesArtist o then 1 else 0
  | .energy => |(t.energy : ℝ) - (o.energy : ℝ)|
  | .genre => (Track.genreDistanceRaw client gt t o).getD 0
  | .instrumentalness => |(t.instrumentalness : ℝ) - (o.instrumentalness : ℝ)|
  | .key => (Track.keyDistanceRaw t o : ℝ)
  | .liveness => |(t.liveness : ℝ) - (o.liveness : ℝ)|
  | .speechiness => |(t.speechiness : ℝ) - (o.speechiness : ℝ)|
  | .tempo => (Track.tempoDistance t o : ℝ)
  | .valence => |(t.valence : ℝ) - (o.valence : ℝ)|

/-- The entry `(i, j)` of the matrix returned by `ComputeDistanceMatrix` of
`shuffling.py`.  The source computes `track1.ComputeDistance(track2)` for
`trackIndex1 <= trackIndex2` and copies the already-written transposed entry
`[trackIndex2, trackIndex1]` otherwise (the row-major fill order guarantees it
has been written); the final matrix therefore holds, at `(i, j)`, the distance
of the index-ordered pair. -/
noncomputable def distanceMatrixEntry (client : Client) (gt : GenreTable)
    (cfg : Configuration) (tracks : List Track)
    (i j : Fin tracks.length) : Option ℝ :=
  if (i : ℕ) ≤ (j : ℕ) then
    Track.ComputeDistance client gt cfg (tracks.get i) (tracks.get j)
  else
    Track.ComputeDistance client gt cfg (tracks.get j) (tracks.get i)

/-- The class `Solution` of `shuffling.py`: tour node indices, objective value and
timestamp (modelled as a rational time coordinate). -/
structure Solution where
  nodeIndices : List ℕ
  objectiveValue : ℚ
  time : ℚ
  deriving DecidableEq, Repr

/-- The mutable state of `RoutingMonitor`: the two parallel solution logs and
the improvement-timeout flag. -/
structure RoutingMonitorState where
  solutions : List Solution
  bestSolutions : List Solution
  didHitImprovementTimeout : Bool
  deriving DecidableEq, Repr

namespace RoutingMonitor

/-- The state of a freshly constructed `RoutingMonitor`. -/
def initialState : RoutingMonitorState :=
  { solutions := [], bestSolutions := [], didHitImprovementTimeout := false }

/-- The method `RoutingMonitor._SearchBestSolutionByTime`: the best-solution log entry
paired with the most recent logged solution whose timestamp is at most
`queryTime`, `none` if no such solution exists. -/
def searchBestSolutionByTime (solutions bestSolutions : List Solution)
    (queryTime : ℚ) : Option Solution :=
  ((solutions.reverse.zip bestSolutions.reverse).find?
    fun p => decide (p.1.time ≤ queryTime)).map fun p => p.2

/-- The incumbent chosen by `RoutingMonitor.__call__` before the appends:
the current solution if the best log is empty or the current objective is at
most the last best objective (ties adopt the newest), else the last best. -/
def chooseBest (st : RoutingMonitorState) (current : Solution) : Solution :=
  match st.bestSolutions.getLast? with
  | none => current
  | some b => if current.objectiveValue ≤ b.objectiveValue then current else b

/-- The log-updating prefix of `RoutingMonitor.__call__`: build the incumbent
and append the current solution and the incumbent to the two logs.  In the
source these appends always execute, before the plateau check (and hence also
when that check later raises). -/
def updateLogs (st : RoutingMonitorState) (current : Solution) :
    RoutingMonitorState :=
  { solutions := st.solutions ++ [current],
    bestSolutions := st.bestSolutions ++ [chooseBest st current],
    didHitImprovementTimeout := st.didHitImprovementTimeout }

/-- The method `RoutingMonitor.__call__` of `shuffling.py`: append to the logs, look up
the comparison baseline, and run the plateau check.  `none` models the
`ZeroDivisionError` raised by the unguarded division when
`bestSolutions[0].objectiveValue - bestSolution.objectiveValue`, the
denominator, is 0.  When the ratio falls below `improvementSize`, the flag is
set and `FinishCurrentSearch` is requested (the flag doubles as the stop
signal here). -/
def call (improvementSize improvementTimeout : ℚ) (st : RoutingMonitorState)
    (current : Solution) : Option RoutingMonitorState :=
  let best := chooseBest st current
  let st' := updateLogs st current
  match searchBestSolutionByTime st'.solutions st'.bestSolutions
      (current.time - improvementTimeout) with
  | none => some st'
  | some comparison =>
      match st'.bestSolutions.head? with
      | none => some st'
      | some first =>
          if first.objectiveValue - best.objectiveValue = 0 then none
          else if (comparison.objectiveValue - best.objectiveValue) /
              (first.objectiveValue - best.objectiveValue) < improvementSize then
            some { st' with didHitImprovementTimeout := true }
          else some st'

/-- The property `RoutingMonitor.bestKnownSolution`: the last entry of the best-solution
log, `None` when the log is empty. -/
def bestKnownSolution (st : RoutingMonitorState) : Option Solution :=
  st.bestSolutions.getLast?

/-- The monitor state after a sequence of callback invocations starting from
a fresh monitor, following the logs only (the plateau check mutates nothing
but the stop flag and can only cut the sequence short). -/
def runLogs (events : List Solution) : RoutingMonitorState :=
  events.foldl updateLogs initialState

end RoutingMonitor

/-! Concrete instances used to evaluate the embedded code on explicit
inputs. -/

/-- A catalog client resolving every artist id to the same artist record
with id `a` and no genre artists. -/
def clientW : Client := { queryArtist := fun _ => ⟨"a", "A", []⟩ }

/-- An empty genre table: every label is unknown. -/
def gtEmpty : GenreTable := fun _ => none

/-- A first concrete track: single artist `a`, all features 0, tempo 120,
key C major. -/
def trackW1 : Track :=
  { id := "t1", name := "T1", artistIDs := ["a"], acousticness := 0,
    danceability := 0, energy := 0, instrumentalness := 0,
    key := some Key.cMajor, liveness := 0, speechiness := 0, tempo := 120,
    valence := 0 }

/-- A second concrete track: identical to the first except for the id. -/
def trackW2 : Track := { trackW1 with id := "t2" }

/-- A third concrete track: zero artists, no key, otherwise like the
first. -/
def trackW3 : Track := { trackW1 with id := "t3", artistIDs := [], key := none }

/-- A configuration with the default weights except a zero genre weight. -/
def cfgNoGenre : Configuration := { Configuration.defaults with genreWeight := 0 }

/-- A configuration with every weight 0 except an acousticness weight of
1. -/
def cfgAcousticOnly : Configuration :=
  { acousticnessWeight := 1, danceabilityWeight := 0,
    differentArtistWeight := 0, energyWeight := 0, genreWeight := 0,
    instrumentalnessWeight := 0, keyWeight := 0, livenessWeight := 0,
    speechinessWeight := 0, tempoWeight := 0, valenceWeight := 0 }

/-- A configuration with every weight 0 except a tempo weight of 1. -/
def cfgTempoOnly : Configuration := { cfgAcousticOnly with
  acousticnessWeight := 0, tempoWeight := 1 }

/-- A concrete track with tempo 0 and acousticness 1/2 (other features 0, no
key). -/
def trackT1 : Track :=
  { trackW3 with
    id := "s1"
    artistIDs := ["a"]
    acousticness := 1/2
    tempo := 0 }

/-- A concrete track with tempo 100 and all other features 0 (no key). -/
def trackT2 : Track :=
  { trackW3 with
    id := "s2"
    artistIDs := ["a"]
    tempo := 100 }

/-- A first monitor event: objective 100 at time 0. -/
def eventW1 : Solution := { nodeIndices := [0], objectiveValue := 100, time := 0 }

/-- A second monitor event: the same objective 100, at time 10 (more than the
3-unit improvement timeout after the first event). -/
def eventW2 : Solution := { nodeIndices := [0], objectiveValue := 100, time := 10 }

/-- A concrete event sequence with objectives 5, 7, 5: the minimum 5 is
attained twice, with the latest occurrence last. -/
def eventsW : List Solution :=
  [{ nodeIndices := [0], objectiveValue := 5, time := 0 },
   { nodeIndices := [1], objectiveValue := 7, time := 1 },
   { nodeIndices := [2], objectiveValue := 5, time := 2 }]

/-- A one-entry genre table: only the label `rock` is known, at the origin of
the embedding space. -/
def gtRock : GenreTable := fun s => if s = "rock" then some ⟨0, 0, 0, 0, 0⟩ else none

/-- A concrete artist with the single genre label `rock`. -/
def artistW1 : Artist := { id := "a1", name := "A1", genres := ["rock"] }

/-- A concrete artist with a different id and the single genre label
`jazz`. -/
def artistW2 : Artist := { id := "a2", name := "A2", genres := ["jazz"] }

/-! Helper lemmas. -/

/-- Reducing the options of a list gives the empty list exactly when every entry is `none`. -/
lemma reduceOption_eq_nil_iff {α : Type} (l : List (Option α)) :
    l.reduceOption = [] ↔ ∀ x ∈ l, x = none := by
  constructor
  · intro hnil x hx
    cases x with
    | none => rfl
    | some v =>
        exact absurd (List.reduceOption_mem_iff.mpr hx) (by simp [hnil])
  · intro hall
    rw [List.eq_nil_iff_forall_not_mem]
    intro v hv
    have := hall (some v) (List.reduceOption_mem_iff.mp hv)
    simp at this

/-- The left fold of `min` over a list yields one of its inputs. -/
lemma foldl_min_mem (x : ℝ) (xs : List ℝ) : xs.foldl min x ∈ x :: xs := by
  induction xs generalizing x with
  | nil => simp
  | cons y ys ih =>
      rcases List.mem_cons.mp (ih (min x y)) with h1 | h1
      · rcases min_choice x y with h2 | h2 <;> rw [List.foldl_cons, h1, h2] <;> simp
      · simp only [List.foldl_cons, List.mem_cons]
        exact Or.inr (Or.inr h1)

/-- The left fold of `min` over a list is a lower bound of its inputs. -/
lemma foldl_min_le (x : ℝ) (xs : List ℝ) : ∀ y ∈ x :: xs, xs.foldl min x ≤ y := by
  induction xs generalizing x with
  | nil =>
      intro y hy
      rw [List.mem_singleton] at hy
      simp [hy]
  | cons z zs ih =>
      intro y hy
      rcases List.mem_cons.mp hy with rfl | hy1
      · exact le_trans (ih (min y z) (min y z) (List.mem_cons_self _ _))
          (min_le_left _ _)
      rcases List.mem_cons.mp hy1 with rfl | hy2
      · exact le_trans (ih (min x y) (min x y) (List.mem_cons_self _ _))
          (min_le_right _ _)
      · exact ih (min x z) y (List.mem_cons_of_mem _ hy2)

/-- Reflexivity of key compatibility (shared helper). -/
lemma key_isCompatible_refl (k : Key) : Key.IsCompatible k k = true := by
  revert k; decide

/-- A defined genre distance is nonnegative (it is a square root). -/
lemma genre_distance_some_nonneg {gt : GenreTable} {g1 g2 : String} {v : ℝ}
    (h : GenreDistanceComputer.ComputeDistance gt g1 g2 = some v) : 0 ≤ v := by
  rcases hg1 : gt g1 with _ | p <;> rcases hg2 : gt g2 with _ | q <;>
    simp only [GenreDistanceComputer.ComputeDistance, hg1, hg2,
      Option.some.injEq, reduceCtorEq] at h
  rw [← h]
  exact Real.sqrt_nonneg _

/-- Every valid pairwise genre distance is nonnegative. -/
lemma validGenreDistances_nonneg (gt : GenreTable) (a b : Artist) :
    ∀ v ∈ Artist.validGenreDistances gt a b, 0 ≤ v := by
  intro v hv
  rw [Artist.validGenreDistances, List.reduceOption_mem_iff] at hv
  rw [Artist.genreDistances] at hv
  rcases List.mem_flatMap.mp hv with ⟨g1, _, hmem⟩
  rcases List.mem_map.mp hmem with ⟨g2, _, heq⟩
  exact genre_distance_some_nonneg heq

/-- The artist distance is nonnegative: it is 0, the fallback 1, or a minimum
of square roots. -/
lemma artist_distance_nonneg (gt : GenreTable) (a b : Artist) :
    0 ≤ Artist.ComputeDistance gt a b := by
  rw [Artist.ComputeDistance]
  split
  · exact le_refl 0
  · cases hvd : Artist.validGenreDistances gt a b with
    | nil => norm_num
    | cons x xs =>
        have hmem := foldl_min_mem x xs
        rw [← hvd] at hmem
        exact validGenreDistances_nonneg gt a b _ hmem

/-- Python `statistics.mean` of a list of nonnegative values, when defined,
is nonnegative. -/
lemma pymean_nonneg {l : List ℝ} {m : ℝ} (hl : ∀ v ∈ l, 0 ≤ v)
    (hm : Track.pymean l = some m) : 0 ≤ m := by
  rw [Track.pymean] at hm
  split at hm
  · cases hm
  · rw [Option.some.injEq] at hm
    rw [← hm]
    exact div_nonneg (List.sum_nonneg hl) (by positivity)

/-- The raw genre component of the track distance, when defined, is
nonnegative. -/
lemma genreDistanceRaw_nonneg (client : Client) (gt : GenreTable)
    (t o : Track) {m : ℝ} (hm : Track.genreDistanceRaw client gt t o = some m) :
    0 ≤ m := by
  refine pymean_nonneg (fun v hv => ?_) hm
  rw [Track.genreDistanceTerms] at hv
  rcases List.mem_flatMap.mp hv with ⟨i, _, hmem⟩
  rcases List.mem_map.mp hmem with ⟨j, _, heq⟩
  rw [← heq]
  exact artist_distance_nonneg gt _ _

/-- Any defined track distance is nonnegative: it is 0 or a square root. -/
lemma track_distance_nonneg (client : Client) (gt : GenreTable)
    (cfg : Configuration) (t o : Track) {v : ℝ}
    (hv : Track.ComputeDistance client gt cfg t o = some v) : 0 ≤ v := by
  by_cases hid : t.id = o.id
  · simp only [Track.ComputeDistance, if_pos hid, Option.some.injEq] at hv
    rw [← hv]
  · rcases hopt : (if 0 < cfg.genreWeight then
        Track.genreDistanceRaw client gt t o else some 0) with _ | gd
    · simp only [Track.ComputeDistance, if_neg hid, hopt, reduceCtorEq] at hv
    · simp only [Track.ComputeDistance, if_neg hid, hopt,
        Option.some.injEq] at hv
      rw [← hv]
      exact Real.sqrt_nonneg _

/-- Splitting a square root of one weighted square: the weight scales the
norm, the square collapses to an absolute value. -/
lemma sqrt_weight_sq (w : ℚ) (d : ℝ) (hw : 0 ≤ w) :
    Real.sqrt ((w : ℝ) * d ^ 2) = Real.sqrt (w : ℝ) * |d| := by
  rw [Real.sqrt_mul (by exact_mod_cast hw), Real.sqrt_sq_eq_abs]

/-- The key component is 0 or 1, hence nonnegative. -/
lemma keyDistanceRaw_nonneg (t o : Track) : 0 ≤ Track.keyDistanceRaw t o := by
  rcases hk1 : t.key with _ | k1 <;> rcases hk2 : o.key with _ | k2 <;>
      simp only [Track.keyDistanceRaw, hk1, hk2]
  · norm_num
  · norm_num
  · norm_num
  · split <;> norm_num

/-- The capped tempo component is nonnegative. -/
lemma tempoDistance_nonneg (t o : Track) : 0 ≤ Track.tempoDistance t o :=
  le_min (by positivity) zero_le_one

/-- The artist cross product of two tracks with nonempty artist lists is
nonempty. -/
lemma genreDistanceTerms_ne_nil (client : Client) (gt : GenreTable)
    (t o : Track) (h1 : t.artistIDs ≠ []) (h2 : o.artistIDs ≠ []) :
    Track.genreDistanceTerms client gt t o ≠ [] := by
  rcases ht : t.artistIDs with _ | ⟨x, xs⟩
  · exact absurd ht h1
  rcases ho : o.artistIDs with _ | ⟨y, ys⟩
  · exact absurd ho h2
  simp [Track.genreDistanceTerms, ht, ho]

/-- Python `statistics.mean` of a nonempty list is its sum over its length. -/
lemma pymean_eq_some (l : List ℝ) (h : l ≠ []) :
    Track.pymean l = some (l.sum / l.length) := by
  rw [Track.pymean, if_neg (by simp [List.isEmpty_iff, h])]

/-- Two tracks whose artist-id lists are the same singleton share an
artist. -/
lemma sharesArtist_single (t o : Track) (aid : String)
    (hta : t.artistIDs = [aid]) (hoa : o.artistIDs = [aid]) :
    t.sharesArtist o = true := by
  simp [Track.sharesArtist, hta, hoa]

/-- The raw genre component of two tracks with the same singleton artist-id
list is the mean of one self-distance, 0. -/
lemma genreDistanceRaw_single (client : Client) (gt : GenreTable)
    (t o : Track) (aid : String)
    (hta : t.artistIDs = [aid]) (hoa : o.artistIDs = [aid]) :
    Track.genreDistanceRaw client gt t o = some 0 := by
  rw [Track.genreDistanceRaw, Track.genreDistanceTerms, hta, hoa]
  simp [Artist.ComputeDistance, Track.pymean]

/-- Evaluation of `Track.ComputeDistance` on two distinct tracks with the
same singleton artist, identical audio features and the same defined key: all
components vanish except the shared-artist indicator, so the distance is the
square root of the `differentArtist` weight (also when that weight is not
positive, where both sides are 0). -/
lemma sameProfile_distance (client : Client) (gt : GenreTable)
    (cfg : Configuration) (t o : Track) (aid : String) (k : Key)
    (hid : t.id ≠ o.id)
    (hta : t.artistIDs = [aid]) (hoa : o.artistIDs = [aid])
    (h1 : t.acousticness = o.acousticness) (h2 : t.danceability = o.danceability)
    (h3 : t.energy = o.energy) (h4 : t.instrumentalness = o.instrumentalness)
    (h5 : t.liveness = o.liveness) (h6 : t.speechiness = o.speechiness)
    (h7 : t.tempo = o.tempo) (h8 : t.valence = o.valence)
    (htk : t.key = some k) (hok : o.key = some k) :
    Track.ComputeDistance client gt cfg t o
      = some (Real.sqrt (cfg.differentArtistWeight : ℝ)) := by
  have hshares := sharesArtist_single t o aid hta hoa
  have hgenreraw := genreDistanceRaw_single client gt t o aid hta hoa
  have hkeyraw : Track.keyDistanceRaw t o = 0 := by
    simp [Track.keyDistanceRaw, htk, hok, key_isCompatible_refl]
  have htempo : Track.tempoDistance t o = 0 := by
    rw [Track.tempoDistance, h7]
    norm_num
  rcases lt_or_le 0 cfg.differentArtistWeight with hpos | hnpos
  · simp only [Track.ComputeDistance, if_neg hid, hshares, hgenreraw, hkeyraw,
      htempo, h1, h2, h3, h4, h5, h6, h8, if_pos hpos, ite_self, if_true,
      sub_self]
    norm_num
  · have hneg : ¬ 0 < cfg.differentArtistWeight := not_lt.mpr hnpos
    have hle : (cfg.differentArtistWeight : ℝ) ≤ 0 := by exact_mod_cast hnpos
    simp only [Track.ComputeDistance, if_neg hid, hshares, hgenreraw, hkeyraw,
      htempo, h1, h2, h3, h4, h5, h6, h8, if_neg hneg, ite_self, sub_self]
    rw [Real.sqrt_eq_zero_of_nonpos hle]
    norm_num

/-! Claim theorems. -/

/-- C8: the key-compatibility relation over the 24 keys is reflexive and
symmetric, both as membership in the precomputed compatible sets and through
`Key.IsCompatible`. -/
theorem c8_key_compatibility_reflexive_symmetric :
    (∀ k : Key, k ∈ gCompatibleKeys k) ∧
    (∀ k j : Key, j ∈ gCompatibleKeys k ↔ k ∈ gCompatibleKeys j) ∧
    (∀ k : Key, Key.IsCompatible k k = true) ∧
    (∀ k j : Key, Key.IsCompatible k j = Key.IsCompatible j k) := by
  refine ⟨?_, ?_, ?_, ?_⟩ <;> decide

/-- C3 (code bug): the configuration paths accept a negative feature weight
unchanged — the command-line weight options are parsed with a bare
`type=float` and `ParseArguments`/`ReadFile` store any provided value with
`setattr`, with no sign validation anywhere; assigning −1 to the genre weight
(or any value to any weight) simply stores it. -/
theorem c3_negative_weight_accepted :
    ((Configuration.defaults.applyWeightSettings [(Axis.genre, -1)]).genreWeight
      = -1) ∧
    (∀ ax : Axis, ∀ v : ℚ,
      (Configuration.defaults.setWeight ax v).weightOf ax = v) := by
  refine ⟨rfl, fun ax v => ?_⟩
  cases ax <;> rfl

/-- C1 (code bug): fed a first solution of objective 100 at time 0 and a
second identical-objective solution at time 10 with an improvement timeout of
3, the monitor callback finds a comparison baseline but the denominator
`bestSolutions[0].objectiveValue - bestSolution.objectiveValue` is 0 and the
unguarded division raises `ZeroDivisionError` (the `none` result) instead of
skipping the plateau check; the first call, which finds no baseline, succeeds
without any stopping action. -/
theorem c1_zero_denominator_raises :
    RoutingMonitor.call (1/20) 3 RoutingMonitor.initialState eventW1
        = some (RoutingMonitor.updateLogs RoutingMonitor.initialState eventW1) ∧
    RoutingMonitor.searchBestSolutionByTime
        (RoutingMonitor.updateLogs
          (RoutingMonitor.updateLogs RoutingMonitor.initialState eventW1)
          eventW2).solutions
        (RoutingMonitor.updateLogs
          (RoutingMonitor.updateLogs RoutingMonitor.initialState eventW1)
          eventW2).bestSolutions
        (eventW2.time - 3) ≠ none ∧
    RoutingMonitor.call (1/20) 3
        (RoutingMonitor.updateLogs RoutingMonitor.initialState eventW1)
        eventW2 = none := by
  refine ⟨?_, ?_, ?_⟩ <;>
    simp [RoutingMonitor.call, RoutingMonitor.updateLogs,
      RoutingMonitor.chooseBest, RoutingMonitor.searchBestSolutionByTime,
      RoutingMonitor.initialState, eventW1, eventW2] <;>
    norm_num

/-- C7: the genre-distance computation is unknown (`none`) exactly when one
of the labels is absent from the table; on a known pair it is the root of the
mean of the five squared embedding differences; it is 0 on a known equal
pair; and it is independent of argument order. -/
theorem c7_genre_distance_characterization (gt : GenreTable) (g h : String) :
    ((GenreDistanceComputer.ComputeDistance gt g h = none) ↔
      (gt g = none ∨ gt h = none)) ∧
    (∀ p q, gt g = some p → gt h = some q →
      GenreDistanceComputer.ComputeDistance gt g h =
        some (Real.sqrt ((((p.x - q.x) ^ 2 + (p.y - q.y) ^ 2 + (p.r - q.r) ^ 2 +
          (p.g - q.g) ^ 2 + (p.b - q.b) ^ 2) / 5 : ℚ)))) ∧
    ((gt g).isSome → GenreDistanceComputer.ComputeDistance gt g g = some 0) ∧
    (GenreDistanceComputer.ComputeDistance gt g h =
      GenreDistanceComputer.ComputeDistance gt h g) := by
  refine ⟨?_, ?_, ?_, ?_⟩
  · cases hg : gt g <;> cases hh : gt h <;>
      simp [GenreDistanceComputer.ComputeDistance, hg, hh]
  · intro p q hp hq
    simp [GenreDistanceComputer.ComputeDistance, hp, hq]
  · intro hsome
    rcases Option.isSome_iff_exists.mp hsome with ⟨p, hp⟩
    simp only [GenreDistanceComputer.ComputeDistance, hp]
    norm_num
  · cases hg : gt g <;> cases hh : gt h <;>
      simp only [GenreDistanceComputer.ComputeDistance, hg, hh]
    congr 2
    push_cast
    ring

/-- C7 witness: on the concrete one-entry table, the distance of `rock` to
itself is 0 and the distance to the unknown label `jazz` is unknown. -/
theorem c7_genre_distance_witness :
    GenreDistanceComputer.ComputeDistance gtRock "rock" "rock" = some 0 ∧
    GenreDistanceComputer.ComputeDistance gtRock "rock" "jazz" = none :=
  ⟨(c7_genre_distance_characterization gtRock "rock" "rock").2.2.1
      (by simp [gtRock]),
    (c7_genre_distance_characterization gtRock "rock" "jazz").1.mpr
      (Or.inr (by simp [gtRock]))⟩

/-- C6: the artist distance is 0 for equal artists (equality is by id); for
distinct artists with at least one valid (non-unknown) genre cross pair it is
the minimum of the valid pairwise genre distances (it is one of them and a
lower bound of all of them); and with no valid pair — either artist has zero
genres, or every cross pair is unknown, which is exactly when the valid list
is empty — it is the maximal distance 1. -/
theorem c6_artist_distance_characterization (gt : GenreTable) (a b : Artist) :
    (a.id = b.id → Artist.ComputeDistance gt a b = 0) ∧
    (a.id ≠ b.id → Artist.validGenreDistances gt a b ≠ [] →
      Artist.ComputeDistance gt a b ∈ Artist.validGenreDistances gt a b ∧
      ∀ v ∈ Artist.validGenreDistances gt a b,
        Artist.ComputeDistance gt a b ≤ v) ∧
    (a.id ≠ b.id → Artist.validGenreDistances gt a b = [] →
      Artist.ComputeDistance gt a b = 1) ∧
    (Artist.validGenreDistances gt a b = [] ↔
      a.genres = [] ∨ b.genres = [] ∨
        ∀ g1 ∈ a.genres, ∀ g2 ∈ b.genres,
          GenreDistanceComputer.ComputeDistance gt g1 g2 = none) := by
  refine ⟨?_, ?_, ?_, ?_⟩
  · intro hid
    simp [Artist.ComputeDistance, hid]
  · intro hid hne
    cases hvd : Artist.validGenreDistances gt a b with
    | nil => exact absurd hvd hne
    | cons x xs =>
        constructor
        · rw [Artist.ComputeDistance, if_neg hid, hvd]
          exact foldl_min_mem x xs
        · rw [Artist.ComputeDistance, if_neg hid, hvd]
          exact foldl_min_le x xs
  · intro hid hvd
    rw [Artist.ComputeDistance, if_neg hid, hvd]
  · rw [Artist.validGenreDistances, reduceOption_eq_nil_iff]
    constructor
    · intro hall
      refine Or.inr (Or.inr fun g1 h1 g2 h2 => hall _ ?_)
      rw [Artist.genreDistances]
      exact List.mem_flatMap.mpr ⟨g1, h1, List.mem_map_of_mem _ h2⟩
    · intro hcases x hx
      rw [Artist.genreDistances] at hx
      rcases List.mem_flatMap.mp hx with ⟨g1, h1, hmem⟩
      rcases List.mem_map.mp hmem with ⟨g2, h2, rfl⟩
      rcases hcases with hnil | hnil | hall
      · rw [hnil] at h1; cases h1
      · rw [hnil] at h2; cases h2
      · exact hall g1 h1 g2 h2

/-- C6 witness: on concrete inputs, an artist has distance 0 to itself, and
two distinct artists whose only genre cross pair is unknown (the label `jazz`
is absent from the one-entry table) have the fallback distance 1; on the pair
(`rock`, `rock`) against an artist with the same single known genre, the
distance is a member of, and a lower bound of, the valid distance list. -/
theorem c6_artist_distance_witness :
    Artist.ComputeDistance gtRock artistW1 artistW1 = 0 ∧
    Artist.ComputeDistance gtRock artistW1 artistW2 = 1 ∧
    Artist.ComputeDistance gtRock artistW1 { artistW2 with genres := ["rock"] }
      ∈ Artist.validGenreDistances gtRock artistW1
        { artistW2 with genres := ["rock"] } :=
  ⟨(c6_artist_distance_characterization gtRock artistW1 artistW1).1 rfl,
    (c6_artist_distance_characterization gtRock artistW1 artistW2).2.2.1
      (by simp [artistW1, artistW2])
      ((c6_artist_distance_characterization gtRock artistW1 artistW2).2.2.2.mpr
        (Or.inr (Or.inr (by
          intro g1 h1 g2 h2
          simp only [artistW1, artistW2, List.mem_singleton] at h1 h2
          subst h1; subst h2
          simp [GenreDistanceComputer.ComputeDistance, gtRock])))),
    ((c6_artist_distance_characterization gtRock artistW1
        { artistW2 with genres := ["rock"] }).2.1
      (by simp [artistW1, artistW2])
      (by
        simp [Artist.validGenreDistances, Artist.genreDistances, artistW1,
          artistW2, GenreDistanceComputer.ComputeDistance, gtRock])).1⟩

/-- C2 (amended): two distinct tracks with identical audio features, the same
single shared artist and the same defined key have distance
`sqrt(differentArtistWeight)` — not 0 — because sharing an artist sets the
`differentArtist` component to 1.0, while every other component vanishes.
The distance is 0 only when the `differentArtist` weight is not positive. -/
theorem c2_identical_profile_distance (client : Client) (gt : GenreTable)
    (cfg : Configuration) (t o : Track) (aid : String) (k : Key)
    (hid : t.id ≠ o.id)
    (hta : t.artistIDs = [aid]) (hoa : o.artistIDs = [aid])
    (h1 : t.acousticness = o.acousticness) (h2 : t.danceability = o.danceability)
    (h3 : t.energy = o.energy) (h4 : t.instrumentalness = o.instrumentalness)
    (h5 : t.liveness = o.liveness) (h6 : t.speechiness = o.speechiness)
    (h7 : t.tempo = o.tempo) (h8 : t.valence = o.valence)
    (htk : t.key = some k) (hok : o.key = some k) :
    Track.ComputeDistance client gt cfg t o
      = some (Real.sqrt (cfg.differentArtistWeight : ℝ)) :=
  sameProfile_distance client gt cfg t o aid k hid hta hoa h1 h2 h3 h4 h5 h6
    h7 h8 htk hok

/-- C2 witness: two concrete tracks with identical features, the shared
single artist `a` and key C major have, under the default weights, the
distance `sqrt 5` (the default `differentArtist` weight is 5). -/
theorem c2_identical_profile_distance_witness :
    Track.ComputeDistance clientW gtEmpty Configuration.defaults trackW1 trackW2
      = some (Real.sqrt ((Configuration.defaults.differentArtistWeight : ℚ) : ℝ)) :=
  c2_identical_profile_distance clientW gtEmpty Configuration.defaults trackW1
    trackW2 "a" Key.cMajor (by decide) rfl rfl rfl rfl rfl rfl rfl rfl rfl rfl
    rfl rfl

/-- C2 counterexample: the claim as stated fails — the same two concrete
tracks (identical features, shared artist, same key) have nonzero distance
under the default weights; the shared artist contributes
`5 * 1.0 ** 2` to the radicand, so the distance is `sqrt 5`, not 0. -/
theorem c2_identical_profile_counterexample :
    Track.ComputeDistance clientW gtEmpty Configuration.defaults trackW1 trackW2
      ≠ some 0 := by
  have h := sameProfile_distance clientW gtEmpty Configuration.defaults trackW1
    trackW2 "a" Key.cMajor (by decide) rfl rfl rfl rfl rfl rfl rfl rfl rfl rfl
    rfl rfl
  rw [h]
  simp only [ne_eq, Option.some.injEq, Real.sqrt_eq_zero']
  norm_num [Configuration.defaults]

/-- C4 (amended): with a positive genre weight, the distance computation on a
pair of distinct tracks of which one resolves zero artists raises (the
`StatisticsError` of `statistics.mean` over the empty artist cross product)
instead of returning a value. -/
theorem c4_zero_artists_genre_raises (client : Client) (gt : GenreTable)
    (cfg : Configuration) (t o : Track)
    (hid : t.id ≠ o.id) (hg : 0 < cfg.genreWeight)
    (he : t.artistIDs = [] ∨ o.artistIDs = []) :
    Track.ComputeDistance client gt cfg t o = none := by
  have hterms : Track.genreDistanceTerms client gt t o = [] := by
    rcases he with he | he <;> simp [Track.genreDistanceTerms, he]
  simp [Track.ComputeDistance, if_neg hid, if_pos hg, Track.genreDistanceRaw,
    hterms, Track.pymean]

/-- C4 witness: under the default weights (genre weight 3), the distance of a
concrete zero-artist track to a normal track is the raising path. -/
theorem c4_zero_artists_genre_raises_witness :
    Track.ComputeDistance clientW gtEmpty Configuration.defaults trackW3 trackW2
      = none :=
  c4_zero_artists_genre_raises clientW gtEmpty Configuration.defaults trackW3
    trackW2 (by decide) (by norm_num [Configuration.defaults]) (Or.inl rfl)

/-- C5 (amended): with exactly one positive axis weight `w` (all other
weights 0) and distinct tracks, the distance reduces to `sqrt w` times the
component of that axis: the absolute feature difference for the seven direct
feature axes, the capped difference `min(|Δtempo| / 10, 1)` for tempo, and
the indicator/mean components for `differentArtist`, `key` and `genre` (for
the genre axis both tracks must resolve at least one artist, otherwise the
computation raises). -/
theorem c5_single_axis_distance (client : Client) (gt : GenreTable)
    (cfg : Configuration) (t o : Track) (ax : Axis) (w : ℚ)
    (hid : t.id ≠ o.id) (hw : cfg.weightOf ax = w) (hpos : 0 < w)
    (hothers : ∀ b : Axis, b ≠ ax → cfg.weightOf b = 0)
    (hart : ax = Axis.genre → t.artistIDs ≠ [] ∧ o.artistIDs ≠ []) :
    Track.ComputeDistance client gt cfg t o
      = some (Real.sqrt (w : ℝ) * Track.axisComponent client gt t o ax) := by
  cases ax with
  | acousticness =>
      have hwf : cfg.acousticnessWeight = w := hw
      have h2 : cfg.danceabilityWeight = 0 := hothers .danceability (by decide)
      have h3 : cfg.differentArtistWeight = 0 := hothers .differentArtist (by decide)
      have h4 : cfg.energyWeight = 0 := hothers .energy (by decide)
      have h5 : cfg.genreWeight = 0 := hothers .genre (by decide)
      have h6 : cfg.instrumentalnessWeight = 0 := hothers .instrumentalness (by decide)
      have h7 : cfg.keyWeight = 0 := hothers .key (by decide)
      have h8 : cfg.livenessWeight = 0 := hothers .liveness (by decide)
      have h9 : cfg.speechinessWeight = 0 := hothers .speechiness (by decide)
      have h10 : cfg.tempoWeight = 0 := hothers .tempo (by decide)
      have h11 : cfg.valenceWeight = 0 := hothers .valence (by decide)
      simp only [Track.ComputeDistance, if_neg hid, Track.axisComponent, hwf,
        h2, h3, h4, h5, h6, h7, h8, h9, h10, h11]
      norm_num
      exact sqrt_weight_sq w _ hpos.le
  | danceability =>
      have hwf : cfg.danceabilityWeight = w := hw
      have h1 : cfg.acousticnessWeight = 0 := hothers .acousticness (by decide)
      have h3 : cfg.differentArtistWeight = 0 := hothers .differentArtist (by decide)
      have h4 : cfg.energyWeight = 0 := hothers .energy (by decide)
      have h5 : cfg.genreWeight = 0 := hothers .genre (by decide)
      have h6 : cfg.instrumentalnessWeight = 0 := hothers .instrumentalness (by decide)
      have h7 : cfg.keyWeight = 0 := hothers .key (by decide)
      have h8 : cfg.livenessWeight = 0 := hothers .liveness (by decide)
      have h9 : cfg.speechinessWeight = 0 := hothers .speechiness (by decide)
      have h10 : cfg.tempoWeight = 0 := hothers .tempo (by decide)
      have h11 : cfg.valenceWeight = 0 := hothers .valence (by decide)
      simp only [Track.ComputeDistance, if_neg hid, Track.axisComponent, hwf,
        h1, h3, h4, h5, h6, h7, h8, h9, h10, h11]
      norm_num
      exact sqrt_weight_sq w _ hpos.le
  | differentArtist =>
      have hwf : cfg.differentArtistWeight = w := hw
      have h1 : cfg.acousticnessWeight = 0 := hothers .acousticness (by decide)
      have h2 : cfg.danceabilityWeight = 0 := hothers .danceability (by decide)
      have h4 : cfg.energyWeight = 0 := hothers .energy (by decide)
      have h5 : cfg.genreWeight = 0 := hothers .genre (by decide)
      have h6 : cfg.instrumentalnessWeight = 0 := hothers .instrumentalness (by decide)
      have h7 : cfg.keyWeight = 0 := hothers .key (by decide)
      have h8 : cfg.livenessWeight = 0 := hothers .liveness (by decide)
      have h9 : cfg.speechinessWeight = 0 := hothers .speechiness (by decide)
      have h10 : cfg.tempoWeight = 0 := hothers .tempo (by decide)
      have h11 : cfg.valenceWeight = 0 := hothers .valence (by decide)
      cases hsh : t.sharesArtist o <;>
        simp only [Track.ComputeDistance, if_neg hid, Track.axisComponent,
          hwf, hsh, hpos, h1, h2, h4, h5, h6, h7, h8, h9, h10, h11] <;>
        norm_num
  | energy =>
      have hwf : cfg.energyWeight = w := hw
      have h1 : cfg.acousticnessWeight = 0 := hothers .acousticness (by decide)
      have h2 : cfg.danceabilityWeight = 0 := hothers .danceability (by decide)
      have h3 : cfg.differentArtistWeight = 0 := hothers .differentArtist (by decide)
      have h5 : cfg.genreWeight = 0 := hothers .genre (by decide)
      have h6 : cfg.instrumentalnessWeight = 0 := hothers .instrumentalness (by decide)
      have h7 : cfg.keyWeight = 0 := hothers .key (by decide)
      have h8 : cfg.livenessWeight = 0 := hothers .liveness (by decide)
      have h9 : cfg.speechinessWeight = 0 := hothers .speechiness (by decide)
      have h10 : cfg.tempoWeight = 0 := hothers .tempo (by decide)
      have h11 : cfg.valenceWeight = 0 := hothers .valence (by decide)
      simp only [Track.ComputeDistance, if_neg hid, Track.axisComponent, hwf,
        h1, h2, h3, h5, h6, h7, h8, h9, h10, h11]
      norm_num
      exact sqrt_weight_sq w _ hpos.le
  | genre =>
      obtain ⟨hta, hoa⟩ := hart rfl
      have hwf : cfg.genreWeight = w := hw
      have h1 : cfg.acousticnessWeight = 0 := hothers .acousticness (by decide)
      have h2 : cfg.danceabilityWeight = 0 := hothers .danceability (by decide)
      have h3 : cfg.differentArtistWeight = 0 := hothers .differentArtist (by decide)
      have h4 : cfg.energyWeight = 0 := hothers .energy (by decide)
      have h6 : cfg.instrumentalnessWeight = 0 := hothers .instrumentalness (by decide)
      have h7 : cfg.keyWeight = 0 := hothers .key (by decide)
      have h8 : cfg.livenessWeight = 0 := hothers .liveness (by decide)
      have h9 : cfg.speechinessWeight = 0 := hothers .speechiness (by decide)
      have h10 : cfg.tempoWeight = 0 := hothers .tempo (by decide)
      have h11 : cfg.valenceWeight = 0 := hothers .valence (by decide)
      have hne := genreDistanceTerms_ne_nil client gt t o hta hoa
      have hmean := pymean_eq_some (Track.genreDistanceTerms client gt t o) hne
      have hraw : Track.genreDistanceRaw client gt t o
          = some ((Track.genreDistanceTerms client gt t o).sum /
              (Track.genreDistanceTerms client gt t o).length) := hmean
      have hnn := genreDistanceRaw_nonneg client gt t o hraw
      simp only [Track.ComputeDistance, if_neg hid, Track.axisComponent, hwf,
        hpos, if_true, hraw, Option.getD_some,
        h1, h2, h3, h4, h6, h7, h8, h9, h10, h11]
      norm_num
      rw [sqrt_weight_sq w _ hpos.le, abs_of_nonneg hnn]
  | instrumentalness =>
      have hwf : cfg.instrumentalnessWeight = w := hw
      have h1 : cfg.acousticnessWeight = 0 := hothers .acousticness (by decide)
      have h2 : cfg.danceabilityWeight = 0 := hothers .danceability (by decide)
      have h3 : cfg.differentArtistWeight = 0 := hothers .differentArtist (by decide)
      have h4 : cfg.energyWeight = 0 := hothers .energy (by decide)
      have h5 : cfg.genreWeight = 0 := hothers .genre (by decide)
      have h7 : cfg.keyWeight = 0 := hothers .key (by decide)
      have h8 : cfg.livenessWeight = 0 := hothers .liveness (by decide)
      have h9 : cfg.speechinessWeight = 0 := hothers .speechiness (by decide)
      have h10 : cfg.tempoWeight = 0 := hothers .tempo (by decide)
      have h11 : cfg.valenceWeight = 0 := hothers .valence (by decide)
      simp only [Track.ComputeDistance, if_neg hid, Track.axisComponent, hwf,
        h1, h2, h3, h4, h5, h7, h8, h9, h10, h11]
      norm_num
      exact sqrt_weight_sq w _ hpos.le
  | key =>
      have hwf : cfg.keyWeight = w := hw
      have h1 : cfg.acousticnessWeight = 0 := hothers .acousticness (by decide)
      have h2 : cfg.danceabilityWeight = 0 := hothers .danceability (by decide)
      have h3 : cfg.differentArtistWeight = 0 := hothers .differentArtist (by decide)
      have h4 : cfg.energyWeight = 0 := hothers .energy (by decide)
      have h5 : cfg.genreWeight = 0 := hothers .genre (by decide)
      have h6 : cfg.instrumentalnessWeight = 0 := hothers .instrumentalness (by decide)
      have h8 : cfg.livenessWeight = 0 := hothers .liveness (by decide)
      have h9 : cfg.speechinessWeight = 0 := hothers .speechiness (by decide)
      have h10 : cfg.tempoWeight = 0 := hothers .tempo (by decide)
      have h11 : cfg.valenceWeight = 0 := hothers .valence (by decide)
      have hkd : (0 : ℝ) ≤ ((Track.keyDistanceRaw t o : ℚ) : ℝ) := by
        exact_mod_cast keyDistanceRaw_nonneg t o
      simp only [Track.ComputeDistance, if_neg hid, Track.axisComponent, hwf,
        hpos, if_true, h1, h2, h3, h4, h5, h6, h8, h9, h10, h11]
      norm_num
      rw [sqrt_weight_sq w _ hpos.le, abs_of_nonneg hkd]
  | liveness =>
      have hwf : cfg.livenessWeight = w := hw
      have h1 : cfg.acousticnessWeight = 0 := hothers .acousticness (by decide)
      have h2 : cfg.danceabilityWeight = 0 := hothers .danceability (by decide)
      have h3 : cfg.differentArtistWeight = 0 := hothers .differentArtist (by decide)
      have h4 : cfg.energyWeight = 0 := hothers .energy (by decide)
      have h5 : cfg.genreWeight = 0 := hothers .genre (by decide)
      have h6 : cfg.instrumentalnessWeight = 0 := hothers .instrumentalness (by decide)
      have h7 : cfg.keyWeight = 0 := hothers .key (by decide)
      have h9 : cfg.speechinessWeight = 0 := hothers .speechiness (by decide)
      have h10 : cfg.tempoWeight = 0 := hothers .tempo (by decide)
      have h11 : cfg.valenceWeight = 0 := hothers .valence (by decide)
      simp only [Track.ComputeDistance, if_neg hid, Track.axisComponent, hwf,
        h1, h2, h3, h4, h5, h6, h7, h9, h10, h11]
      norm_num
      exact sqrt_weight_sq w _ hpos.le
  | speechiness =>
      have hwf : cfg.speechinessWeight = w := hw
      have h1 : cfg.acousticnessWeight = 0 := hothers .acousticness (by decide)
      have h2 : cfg.danceabilityWeight = 0 := hothers .danceability (by decide)
      have h3 : cfg.differentArtistWeight = 0 := hothers .differentArtist (by decide)
      have h4 : cfg.energyWeight = 0 := hothers .energy (by decide)
      have h5 : cfg.genreWeight = 0 := hothers .genre (by decide)
      have h6 : cfg.instrumentalnessWeight = 0 := hothers .instrumentalness (by decide)
      have h7 : cfg.keyWeight = 0 := hothers .key (by decide)
      have h8 : cfg.livenessWeight = 0 := hothers .liveness (by decide)
      have h10 : cfg.tempoWeight = 0 := hothers .tempo (by decide)
      have h11 : cfg.valenceWeight = 0 := hothers .valence (by decide)
      simp only [Track.ComputeDistance, if_neg hid, Track.axisComponent, hwf,
        h1, h2, h3, h4, h5, h6, h7, h8, h10, h11]
      norm_num
      exact sqrt_weight_sq w _ hpos.le
  | tempo =>
      have hwf : cfg.tempoWeight = w := hw
      have h1 : cfg.acousticnessWeight = 0 := hothers .acousticness (by decide)
      have h2 : cfg.danceabilityWeight = 0 := hothers .danceability (by decide)
      have h3 : cfg.differentArtistWeight = 0 := hothers .differentArtist (by decide)
      have h4 : cfg.energyWeight = 0 := hothers .energy (by decide)
      have h5 : cfg.genreWeight = 0 := hothers .genre (by decide)
      have h6 : cfg.instrumentalnessWeight = 0 := hothers .instrumentalness (by decide)
      have h7 : cfg.keyWeight = 0 := hothers .key (by decide)
      have h8 : cfg.livenessWeight = 0 := hothers .liveness (by decide)
      have h9 : cfg.speechinessWeight = 0 := hothers .speechiness (by decide)
      have h11 : cfg.valenceWeight = 0 := hothers .valence (by decide)
      have htd : (0 : ℝ) ≤ ((Track.tempoDistance t o : ℚ) : ℝ) := by
        exact_mod_cast tempoDistance_nonneg t o
      simp only [Track.ComputeDistance, if_neg hid, Track.axisComponent, hwf,
        h1, h2, h3, h4, h5, h6, h7, h8, h9, h11]
      norm_num
      rw [sqrt_weight_sq w _ hpos.le, abs_of_nonneg htd]
  | valence =>
      have hwf : cfg.valenceWeight = w := hw
      have h1 : cfg.acousticnessWeight = 0 := hothers .acousticness (by decide)
      have h2 : cfg.danceabilityWeight = 0 := hothers .danceability (by decide)
      have h3 : cfg.differentArtistWeight = 0 := hothers .differentArtist (by decide)
      have h4 : cfg.energyWeight = 0 := hothers .energy (by decide)
      have h5 : cfg.genreWeight = 0 := hothers .genre (by decide)
      have h6 : cfg.instrumentalnessWeight = 0 := hothers .instrumentalness (by decide)
      have h7 : cfg.keyWeight = 0 := hothers .key (by decide)
      have h8 : cfg.livenessWeight = 0 := hothers .liveness (by decide)
      have h9 : cfg.speechinessWeight = 0 := hothers .speechiness (by decide)
      have h10 : cfg.tempoWeight = 0 := hothers .tempo (by decide)
      simp only [Track.ComputeDistance, if_neg hid, Track.axisComponent, hwf,
        h1, h2, h3, h4, h5, h6, h7, h8, h9, h10]
      norm_num
      exact sqrt_weight_sq w _ hpos.le

/-- C5 witness: for the acousticness axis with weight 1 and two concrete
tracks whose acousticness differs, the distance is `sqrt 1` times the
acousticness component. -/
theorem c5_single_axis_distance_witness :
    Track.ComputeDistance clientW gtEmpty cfgAcousticOnly trackT1
        { trackT2 with tempo := 0 }
      = some (Real.sqrt ((1 : ℚ) : ℝ) *
          Track.axisComponent clientW gtEmpty trackT1
            { trackT2 with tempo := 0 } Axis.acousticness) :=
  c5_single_axis_distance clientW gtEmpty cfgAcousticOnly trackT1
    { trackT2 with tempo := 0 } Axis.acousticness 1 (by decide) rfl
    (by norm_num) (by intro b hb; cases b <;> first | rfl | exact absurd rfl hb)
    (fun h => nomatch h)

/-- C5 counterexample: the claim as stated fails on the tempo axis — with
only the tempo weight set (to 1) and two tracks whose tempos differ by 100
BPM, the distance is the capped value 1, not `sqrt 1 * 100` (the weight-times
absolute-difference the claim predicts). -/
theorem c5_tempo_counterexample :
    Track.ComputeDistance clientW gtEmpty cfgTempoOnly trackT1 trackT2
        = some 1 ∧
    Track.ComputeDistance clientW gtEmpty cfgTempoOnly trackT1 trackT2
      ≠ some (Real.sqrt (cfgTempoOnly.tempoWeight : ℝ) *
          |(trackT1.tempo : ℝ) - (trackT2.tempo : ℝ)|) := by
  have h : Track.ComputeDistance clientW gtEmpty cfgTempoOnly trackT1 trackT2
      = some 1 := by
    simp only [Track.ComputeDistance, cfgTempoOnly, cfgAcousticOnly, trackT1,
      trackT2, trackW3, trackW1, Track.sharesArtist, Track.keyDistanceRaw,
      Track.tempoDistance, clientW, gtEmpty]
    norm_num
    intro hcontra
    exact absurd hcontra (by decide)
  refine ⟨h, ?_⟩
  rw [h]
  simp only [ne_eq, Option.some.injEq]
  intro hcontra
  rw [show ((trackT1.tempo : ℝ) - (trackT2.tempo : ℝ)) = -100 by
    norm_num [trackT1, trackT2, trackW3, trackW1]] at hcontra
  rw [show (cfgTempoOnly.tempoWeight : ℝ) = 1 by
    norm_num [cfgTempoOnly, cfgAcousticOnly]] at hcontra
  norm_num at hcontra

/-- C4 counterexample: the claim as stated fails for the `differentArtist`
and `key` weights — with genre weight 0 but positive `differentArtist` (5)
and `key` (3) weights, the distance of a zero-artist, keyless track to a
normal track computes normally (the empty artist intersection just gives
component 0.0 and the missing key gives component 1.0), returning `sqrt 3`
instead of failing. -/
theorem c4_zero_artists_counterexample :
    Track.ComputeDistance clientW gtEmpty cfgNoGenre trackW3 trackW2
        = some (Real.sqrt 3) ∧
    Track.ComputeDistance clientW gtEmpty cfgNoGenre trackW3 trackW2 ≠ none := by
  have h : Track.ComputeDistance clientW gtEmpty cfgNoGenre trackW3 trackW2
      = some (Real.sqrt 3) := by
    simp only [Track.ComputeDistance, cfgNoGenre, Configuration.defaults,
      trackW3, trackW2, trackW1, Track.sharesArtist, Track.keyDistanceRaw,
      Track.tempoDistance, clientW, gtEmpty]
    norm_num
    intro hcontra
    exact absurd hcontra (by decide)
  exact ⟨h, by rw [h]; exact Option.some_ne_none _⟩

/-- C9: for every configuration with nonnegative weights and every track
list, the distance matrix equals its own transpose, has a `some 0` diagonal,
and every defined entry is nonnegative. -/
theorem c9_distance_matrix_properties (client : Client) (gt : GenreTable)
    (cfg : Configuration) (tracks : List Track)
    (hw : ∀ ax : Axis, 0 ≤ cfg.weightOf ax) (i j : Fin tracks.length) :
    distanceMatrixEntry client gt cfg tracks i j
      = distanceMatrixEntry client gt cfg tracks j i ∧
    distanceMatrixEntry client gt cfg tracks i i = some 0 ∧
    ∀ v, distanceMatrixEntry client gt cfg tracks i j = some v → 0 ≤ v := by
  refine ⟨?_, ?_, ?_⟩
  · rcases lt_trichotomy (i : ℕ) (j : ℕ) with hlt | heq | hlt
    · rw [distanceMatrixEntry, distanceMatrixEntry, if_pos hlt.le,
        if_neg (not_le.mpr hlt)]
    · have : i = j := Fin.ext heq
      subst this
      rfl
    · rw [distanceMatrixEntry, distanceMatrixEntry, if_pos hlt.le,
        if_neg (not_le.mpr hlt)]
  · rw [distanceMatrixEntry, if_pos (le_refl _)]
    simp [Track.ComputeDistance]
  · intro v hv
    rw [distanceMatrixEntry] at hv
    split at hv <;> exact track_distance_nonneg _ _ _ _ _ hv

/-- C9 witness: for the concrete two-track list under the default weights,
the (0,1) and (1,0) entries agree, the (0,0) entry is 0 and the (0,1) entry
is nonnegative when defined. -/
theorem c9_distance_matrix_properties_witness :
    distanceMatrixEntry clientW gtEmpty Configuration.defaults
        [trackW1, trackW2] ⟨0, by decide⟩ ⟨1, by decide⟩
      = distanceMatrixEntry clientW gtEmpty Configuration.defaults
        [trackW1, trackW2] ⟨1, by decide⟩ ⟨0, by decide⟩ ∧
    distanceMatrixEntry clientW gtEmpty Configuration.defaults
        [trackW1, trackW2] ⟨0, by decide⟩ ⟨0, by decide⟩ = some 0 ∧
    ∀ v, distanceMatrixEntry clientW gtEmpty Configuration.defaults
        [trackW1, trackW2] ⟨0, by decide⟩ ⟨1, by decide⟩ = some v → 0 ≤ v :=
  c9_distance_matrix_properties clientW gtEmpty Configuration.defaults
    [trackW1, trackW2]
    (by intro ax; cases ax <;>
      norm_num [Configuration.defaults, Configuration.weightOf])
    ⟨0, by decide⟩ ⟨1, by decide⟩

/-- Inductive specification of the monitor logs after any callback sequence:
the solution log replays the events, the best log has the same length, its
objective values never increase along it, and its last entry is the logged
solution with minimal objective, the latest one on ties (every strictly later
event has a strictly larger objective). -/
lemma runLogs_spec (events : List Solution) :
    (RoutingMonitor.runLogs events).solutions = events ∧
    (RoutingMonitor.runLogs events).bestSolutions.length = events.length ∧
    List.Chain' (fun a b => b.objectiveValue ≤ a.objectiveValue)
      (RoutingMonitor.runLogs events).bestSolutions ∧
    (events ≠ [] → ∃ b,
      (RoutingMonitor.runLogs events).bestSolutions.getLast? = some b ∧
      b ∈ events ∧
      (∀ s ∈ events, b.objectiveValue ≤ s.objectiveValue) ∧
      ∃ k : ℕ, events[k]? = some b ∧
        ∀ (l : ℕ) (s : Solution), k < l → events[l]? = some s →
          b.objectiveValue < s.objectiveValue) := by
  induction events using List.reverseRecOn with
  | nil =>
      simp [RoutingMonitor.runLogs, RoutingMonitor.initialState]
  | append_singleton evs e ih =>
      obtain ⟨ihsol, ihlen, ihchain, ihbest⟩ := ih
      have hrun : RoutingMonitor.runLogs (evs ++ [e])
          = RoutingMonitor.updateLogs (RoutingMonitor.runLogs evs) e := by
        rw [RoutingMonitor.runLogs, RoutingMonitor.runLogs, List.foldl_append,
          List.foldl_cons, List.foldl_nil]
      by_cases hne : evs = []
      · subst hne
        refine ⟨?_, ?_, ?_, fun _ => ⟨e, ?_, ?_, ?_, 0, ?_, ?_⟩⟩ <;>
          simp [RoutingMonitor.runLogs, RoutingMonitor.initialState,
            RoutingMonitor.updateLogs, RoutingMonitor.chooseBest]
        intro l s hl hs
        rw [List.getElem?_eq_none_iff.mpr (by simpa using hl)] at hs
        cases hs
      · obtain ⟨b, hlast, hmem, hmin, k, hk, hlater⟩ := ihbest hne
        have hklt : k < evs.length := by
          by_contra hc
          push_neg at hc
          rw [List.getElem?_eq_none_iff.mpr hc] at hk
          cases hk
        have hchoose : RoutingMonitor.chooseBest (RoutingMonitor.runLogs evs) e
            = if e.objectiveValue ≤ b.objectiveValue then e else b := by
          rw [RoutingMonitor.chooseBest, hlast]
        refine ⟨?_, ?_, ?_, fun _ => ?_⟩
        · rw [hrun, RoutingMonitor.updateLogs]
          simp [ihsol]
        · rw [hrun, RoutingMonitor.updateLogs]
          simp [ihlen]
        · rw [hrun, RoutingMonitor.updateLogs]
          refine List.Chain'.append ihchain (List.chain'_singleton _)
            fun x hx y hy => ?_
          rw [hlast, Option.mem_def, Option.some.injEq] at hx
          rw [List.head?_cons, Option.mem_def, Option.some.injEq] at hy
          subst hx
          subst hy
          rw [hchoose]
          split
          · assumption
          · exact le_refl _
        · rw [hrun, RoutingMonitor.updateLogs]
          rcases le_or_lt e.objectiveValue b.objectiveValue with hle | hlt
          · refine ⟨e, ?_, ?_, ?_, evs.length, ?_, ?_⟩
            · simp only [List.getLast?_concat, hchoose, if_pos hle]
            · exact List.mem_append_right _ (List.mem_singleton.mpr rfl)
            · intro s hs
              rcases List.mem_append.mp hs with hs | hs
              · exact le_trans hle (hmin s hs)
              · rw [List.mem_singleton.mp hs]
            · exact List.getElem?_concat_length evs e
            · intro l s hl hs
              have hnone : (evs ++ [e])[l]? = none :=
                List.getElem?_eq_none_iff.mpr (by
                  rw [List.length_append, List.length_singleton]
                  omega)
              rw [hnone] at hs
              cases hs
          · refine ⟨b, ?_, List.mem_append_left _ hmem, ?_, k, ?_, ?_⟩
            · simp only [List.getLast?_concat, hchoose,
                if_neg (not_le.mpr hlt)]
            · intro s hs
              rcases List.mem_append.mp hs with hs | hs
              · exact hmin s hs
              · rw [List.mem_singleton.mp hs]
                exact hlt.le
            · rw [List.getElem?_append_left hklt]
              exact hk
            · intro l s hl hs
              rcases lt_trichotomy l evs.length with h1 | h1 | h1
              · rw [List.getElem?_append_left h1] at hs
                exact hlater l s hl hs
              · subst h1
                rw [List.getElem?_concat_length] at hs
                rw [Option.some.injEq] at hs
                subst hs
                exact hlt
              · rw [List.getElem?_eq_none_iff.mpr (by
                  rw [List.length_append, List.length_singleton]
                  omega)] at hs
                cases hs

/-- A successful monitor callback leaves exactly the appended logs in the
state: whatever the plateau check decides, the solution and best logs of the
result are those of `updateLogs`. -/
lemma call_updates_logs (sz tm : ℚ) (st : RoutingMonitorState)
    (cur : Solution) (st' : RoutingMonitorState)
    (h : RoutingMonitor.call sz tm st cur = some st') :
    st'.solutions = (RoutingMonitor.updateLogs st cur).solutions ∧
    st'.bestSolutions = (RoutingMonitor.updateLogs st cur).bestSolutions := by
  simp only [RoutingMonitor.call] at h
  split at h
  · rw [Option.some.injEq] at h
    subst h
    exact ⟨rfl, rfl⟩
  · split at h
    · rw [Option.some.injEq] at h
      subst h
      exact ⟨rfl, rfl⟩
    · split at h
      · cases h
      · split at h <;>
          · rw [Option.some.injEq] at h
            subst h
            exact ⟨rfl, rfl⟩

/-- C10: every monitor callback appends exactly one entry to each of the two
logs (also through `call`, whenever it returns), so after any event sequence
both logs have the length of the event sequence; the best-log objectives are
non-increasing; and the exposed best-known solution is the logged solution of
minimal objective, the most recently appended one on ties. -/
theorem c10_monitor_log_invariants (events : List Solution)
    (hne : events ≠ []) :
    (RoutingMonitor.runLogs events).solutions.length = events.length ∧
    (RoutingMonitor.runLogs events).bestSolutions.length = events.length ∧
    (∀ st cur,
      (RoutingMonitor.updateLogs st cur).solutions.length
          = st.solutions.length + 1 ∧
      (RoutingMonitor.updateLogs st cur).bestSolutions.length
          = st.bestSolutions.length + 1) ∧
    (∀ sz tm st cur st', RoutingMonitor.call sz tm st cur = some st' →
      st'.solutions = (RoutingMonitor.updateLogs st cur).solutions ∧
      st'.bestSolutions = (RoutingMonitor.updateLogs st cur).bestSolutions) ∧
    List.Chain' (fun a b => b.objectiveValue ≤ a.objectiveValue)
      (RoutingMonitor.runLogs events).bestSolutions ∧
    ∃ b, RoutingMonitor.bestKnownSolution (RoutingMonitor.runLogs events)
        = some b ∧
      b ∈ events ∧
      (∀ s ∈ events, b.objectiveValue ≤ s.objectiveValue) ∧
      ∃ k : ℕ, events[k]? = some b ∧
        ∀ (l : ℕ) (s : Solution), k < l → events[l]? = some s →
          b.objectiveValue < s.objectiveValue := by
  obtain ⟨hsol, hlen, hchain, hbest⟩ := runLogs_spec events
  refine ⟨by rw [hsol], hlen, ?_, call_updates_logs, hchain, hbest hne⟩
  intro st cur
  simp [RoutingMonitor.updateLogs]

/-- C10 witness: the invariants instantiated on the concrete 5, 7, 5
objective sequence. -/
theorem c10_monitor_log_invariants_witness :
    (RoutingMonitor.runLogs eventsW).solutions.length = eventsW.length ∧
    (RoutingMonitor.runLogs eventsW).bestSolutions.length = eventsW.length ∧
    (∀ st cur,
      (RoutingMonitor.updateLogs st cur).solutions.length
          = st.solutions.length + 1 ∧
      (RoutingMonitor.updateLogs st cur).bestSolutions.length
          = st.bestSolutions.length + 1) ∧
    (∀ sz tm st cur st', RoutingMonitor.call sz tm st cur = some st' →
      st'.solutions = (RoutingMonitor.updateLogs st cur).solutions ∧
      st'.bestSolutions = (RoutingMonitor.updateLogs st cur).bestSolutions) ∧
    List.Chain' (fun a b => b.objectiveValue ≤ a.objectiveValue)
      (RoutingMonitor.runLogs eventsW).bestSolutions ∧
    ∃ b, RoutingMonitor.bestKnownSolution (RoutingMonitor.runLogs eventsW)
        = some b ∧
      b ∈ eventsW ∧
      (∀ s ∈ eventsW, b.objectiveValue ≤ s.objectiveValue) ∧
      ∃ k : ℕ, eventsW[k]? = some b ∧
        ∀ (l : ℕ) (s : Solution), k < l → eventsW[l]? = some s →
          b.objectiveValue < s.objectiveValue :=
  c10_monitor_log_invariants eventsW (by simp [eventsW])

end Shufflr
